import Mathlib

/-!
# Verification of the eSignet identity-exchange core (`src/esignetService.js`, `src/app.js`)

Shallow embedding of the OAuth2/OIDC client-assertion and user-info
decoding flow of the DLbackend repository.  JOSE primitives
(`compactDecrypt`, `flattenedDecrypt`, `generalDecrypt`, `decodeJwt`,
`JSON.parse`) are modelled symbolically over an `Envelope` message
algebra; the control flow of `decodeUserInfoResponse`, `post_GetToken`,
`generateSignedJwt`, `saveUserToDatabase`, `get_GetUserInfo` and the
`/delegate/fetchUserInfo` handler is translated from the source.
-/

namespace Esignet

/-- JavaScript truthiness of a possibly-undefined string value:
`undefined` and `""` are falsy, every other string is truthy. -/
def jsTruthy : Option String → Bool
  | none => false
  | some s => s ≠ ""

/-- JavaScript coercion of a possibly-undefined string to a string,
as performed by string concatenation (`undefined + "/x"` = `"undefined/x"`). -/
def jsStr : Option String → String
  | none => "undefined"
  | some s => s

/-- Model of JavaScript `String.prototype.toLowerCase()` (character-wise
lowercasing, as applied to the ASCII configuration values in play). -/
def jsToLower (s : String) : String :=
  String.mk (s.data.map Char.toLower)

/-- Model of JavaScript `String.prototype.trim()`: remove whitespace from
both ends of the string. -/
def jsTrim (s : String) : String :=
  String.mk (((s.data.dropWhile Char.isWhitespace).reverse.dropWhile Char.isWhitespace).reverse)

/-- A claims payload: the optional standard fields that the service reads
(`decodeUserInfoResponse` output, consumed by `saveUserToDatabase`). -/
structure Claims where
  sub : Option String := none
  user_id : Option String := none
  name : Option String := none
  email : Option String := none
  phone_number : Option String := none
  phone : Option String := none
  birthdate : Option String := none
  address : Option String := none
  deriving Repr, DecidableEq

/-- The three JWE serialization forms handled by the decryption fallback
chain in `decodeUserInfoResponse` (`src/esignetService.js:201-212`). -/
inductive JweForm
  | compact
  | flattened
  | general
  deriving Repr, DecidableEq

/-- Symbolic model of the user-info response value (`response.data`):
a compact signed token, a plain JSON claims body, a JWE envelope under a
symbolic key identified by a `Nat`, or an unparseable blob. -/
inductive Envelope
  | jwt (claims : Claims)
  | json (claims : Claims)
  | jwe (form : JweForm) (keyId : Nat) (inner : Envelope)
  | garbage
  deriving Repr, DecidableEq

/-- Symbolic `jose.compactDecrypt`: succeeds exactly on a compact-form JWE
encrypted to the supplied key; every other input throws. -/
def compactDecrypt (key : Nat) : Envelope → Option Envelope
  | .jwe .compact k inner => if k = key then some inner else none
  | _ => none

/-- Symbolic `jose.flattenedDecrypt`: succeeds exactly on a flattened-JSON
JWE encrypted to the supplied key. -/
def flattenedDecrypt (key : Nat) : Envelope → Option Envelope
  | .jwe .flattened k inner => if k = key then some inner else none
  | _ => none

/-- Symbolic `jose.generalDecrypt`: succeeds exactly on a general-JSON
JWE encrypted to the supplied key. -/
def generalDecrypt (key : Nat) : Envelope → Option Envelope
  | .jwe .general k inner => if k = key then some inner else none
  | _ => none

/-- Symbolic `jose.decodeJwt`: decodes the payload of a compact signed
token without signature verification; throws on anything else. -/
def decodeJwt : Envelope → Option Claims
  | .jwt c => some c
  | _ => none

/-- Symbolic `JSON.parse` of the response (and the identity pass-through
for a response that is already a parsed JSON object): yields the claims
of a plain JSON body, fails on anything else. -/
def jsonParse : Envelope → Option Claims
  | .json c => some c
  | _ => none

/-- Stored `JWE_USERINFO_PRIVATE_KEY` configuration value: either a
base64-encoded JWK that decodes/parses/imports to the symbolic key
`keyId`, or a configured-but-malformed value whose decode chain
(`Buffer.from` / `JSON.parse` / `importJWK`) throws. -/
inductive KeyConfig
  | valid (keyId : Nat)
  | malformed
  deriving Repr, DecidableEq

/-- The configuration record destructured from `require("./config")` in
`src/esignetService.js:10` (only the fields the identity core reads). -/
structure Config where
  ESIGNET_SERVICE_URL : Option String := none
  CLIENT_ASSERTION_TYPE : Option String := none
  CLIENT_PRIVATE_KEY : Option String := none
  USERINFO_RESPONSE_TYPE : Option String := none
  JWE_USERINFO_PRIVATE_KEY : Option KeyConfig := none
  deriving Repr

/-- `baseUrl = ESIGNET_SERVICE_URL ? ESIGNET_SERVICE_URL.trim() : ''`
(`src/esignetService.js:12`). -/
def baseUrl (cfg : Config) : String :=
  match cfg.ESIGNET_SERVICE_URL with
  | none => ""
  | some s => if s = "" then "" else jsTrim s

/-- `getTokenEndPoint` (`src/esignetService.js:13`). -/
def getTokenEndPoint : String := "/oauth/v2/token"

/-- `getUserInfoEndPoint` (`src/esignetService.js:14`). -/
def getUserInfoEndPoint : String := "/oidc/userinfo"

/-- The guard `USERINFO_RESPONSE_TYPE && USERINFO_RESPONSE_TYPE.toLowerCase() === "jwe"`
(`src/esignetService.js:191`). -/
def isJweConfigured (t : Option String) : Bool :=
  match t with
  | none => false
  | some s => s ≠ "" && jsToLower s == "jwe"

/-- Errors surfaced by `decodeUserInfoResponse`, split by origin:
the missing-key configuration check, a rethrown key-decode/import
failure, a rethrown decryption failure (all three strategies failed),
and the final `"Invalid user info response format"` error. -/
inductive DecodeError
  | missingJweKey
  | keyImportError
  | decryptionError
  | formatError
  deriving Repr, DecidableEq

/-- The ordered decryption fallback of `src/esignetService.js:201-212`:
try `compactDecrypt`; on failure `flattenedDecrypt`; on failure
`generalDecrypt`; the last failure propagates. -/
def decryptChain (key : Nat) (response : Envelope) : Option Envelope :=
  match compactDecrypt key response with
  | some p => some p
  | none =>
    match flattenedDecrypt key response with
    | some p => some p
    | none => generalDecrypt key response

/-- The trailing JWT-then-JSON decode of `src/esignetService.js:219-231`:
try `decodeJwt`; on failure try `JSON.parse`; fail with the format error
only when both fail. -/
def decodeJwtOrJson (response : Envelope) : Except DecodeError Claims :=
  match decodeJwt response with
  | some claims => .ok claims
  | none =>
    match jsonParse response with
    | some claims => .ok claims
    | none => .error .formatError

/-- `decodeUserInfoResponse` (`src/esignetService.js:188-232`): when the
configured response type is (case-insensitively, truthily) `"jwe"`,
require the decryption key, decode/import it, run the three-step
decryption fallback on the response, and rethrow on failure; then (or
immediately, when encryption is not configured) decode the result as a
JWT, falling back to JSON parsing. -/
def decodeUserInfoResponse (cfg : Config) (userInfoResponse : Envelope) :
    Except DecodeError Claims :=
  if isJweConfigured cfg.USERINFO_RESPONSE_TYPE then
    match cfg.JWE_USERINFO_PRIVATE_KEY with
    | none => .error .missingJweKey
    | some .malformed => .error .keyImportError
    | some (.valid key) =>
      match decryptChain key userInfoResponse with
      | none => .error .decryptionError
      | some plaintext => decodeJwtOrJson plaintext
  else
    decodeJwtOrJson userInfoResponse

/-! ## Client assertion signing and the token exchange -/

/-- Base-36 digit character, as used by JavaScript
`Number.prototype.toString(36)`: `0-9` then `a-z`. -/
def digitChar36 (d : Fin 36) : Char :=
  if d.val < 10 then Char.ofNat (48 + d.val) else Char.ofNat (87 + d.val)

/-- Little-endian base-36 digits of `n`, computed with explicit fuel so
that the definition is structurally recursive. -/
def toBase36Aux : Nat → Nat → List (Fin 36)
  | 0, _ => []
  | fuel + 1, n =>
    if h : n = 0 then []
    else ⟨n % 36, Nat.mod_lt _ (by omega)⟩ :: toBase36Aux fuel (n / 36)

/-- Little-endian base-36 digits of `n` (`n` itself is enough fuel since
the argument strictly decreases under division by 36). -/
def toBase36Digits (n : Nat) : List (Fin 36) :=
  toBase36Aux n n

/-- Value of a little-endian base-36 digit list. -/
def fromBase36Digits : List (Fin 36) → Nat
  | [] => 0
  | d :: ds => d.val + 36 * fromBase36Digits ds

/-- Model of JavaScript `Number.prototype.toString(36)` on the
non-negative integers handled here (`Date.now()` values). -/
def toBase36 (n : Nat) : String :=
  if n = 0 then "0" else String.mk ((toBase36Digits n).map digitChar36).reverse

/-- `generateUniqueId` (`src/esignetService.js:178-181`): the
`Math.random().toString(36).substring(2)` sample and the `Date.now()`
millisecond clock reading are explicit inputs of the embedding; the
function concatenates the random suffix with the base-36 rendering of
the clock. -/
def generateUniqueId (randSuffix : String) (nowMs : Nat) : String :=
  randSuffix ++ toBase36 nowMs

/-- The claims set of the client assertion produced by
`generateSignedJwt` (times in epoch seconds, as serialized by
`jose.SignJWT`). -/
structure SignedJwtClaims where
  iss : String
  sub : String
  aud : String
  jti : String
  iat : Nat
  exp : Nat
  deriving Repr, DecidableEq

/-- `generateSignedJwt` (`src/esignetService.js:151-175`): fail when
`CLIENT_PRIVATE_KEY` is not configured; otherwise build the claims
`{iss, sub, aud := ESIGNET_SERVICE_URL + "/oauth/v2/token", jti}`, set
`iat` to the current epoch second and the expiry to `"5m"` after now.
The wall clock (seconds and milliseconds) and the `Math.random` sample
are explicit inputs of the embedding. -/
def generateSignedJwt (cfg : Config) (clientId : String)
    (nowSec : Nat) (randSuffix : String) (nowMs : Nat) :
    Except String SignedJwtClaims :=
  if ¬ jsTruthy cfg.CLIENT_PRIVATE_KEY then
    .error "CLIENT_PRIVATE_KEY is not configured"
  else
    let tokenEndpoint := jsStr cfg.ESIGNET_SERVICE_URL ++ getTokenEndPoint
    .ok { iss := clientId
          sub := clientId
          aud := tokenEndpoint
          jti := generateUniqueId randSuffix nowMs
          iat := nowSec
          exp := nowSec + 300 }

/-- The request-body fields destructured by `post_GetToken` from its
argument (`src/esignetService.js:33-38`). -/
structure TokenRequestParams where
  code : String := ""
  client_id : String := ""
  redirect_uri : String := ""
  grant_type : String := ""
  deriving Repr, DecidableEq

/-- The HTTP POST that `post_GetToken` hands to `axios.post`: the
endpoint URL and the form-encoded body (`src/esignetService.js:43-60`). -/
structure TokenRequest where
  endpoint : String
  code : String
  client_id : String
  redirect_uri : String
  grant_type : String
  client_assertion_type : String
  client_assertion : SignedJwtClaims
  deriving Repr, DecidableEq

/-- `post_GetToken` (`src/esignetService.js:33-66`) up to the network
boundary: fail when `baseUrl` is empty; build the form body, including
the freshly signed client assertion (whose failure propagates); a
returned `TokenRequest` is the request posted to
`baseUrl + "/oauth/v2/token"`. An `error` result is raised before any
network call is made. -/
def post_GetToken (cfg : Config) (params : TokenRequestParams)
    (nowSec : Nat) (randSuffix : String) (nowMs : Nat) :
    Except String TokenRequest :=
  if baseUrl cfg = "" then
    .error "ESIGNET_SERVICE_URL is not configured"
  else
    match generateSignedJwt cfg params.client_id nowSec randSuffix nowMs with
    | .error e => .error e
    | .ok assertion =>
      .ok { endpoint := baseUrl cfg ++ getTokenEndPoint
            code := params.code
            client_id := params.client_id
            redirect_uri := params.redirect_uri
            grant_type := params.grant_type
            client_assertion_type := jsStr cfg.CLIENT_ASSERTION_TYPE
            client_assertion := assertion }

/-! ## Persistence (best effort) and the user-info fetch -/

/-- JavaScript `a || b` on possibly-undefined strings. -/
def jsOr (a b : Option String) : Option String :=
  if jsTruthy a then a else b

/-- JavaScript `a || d` where the fallback is a string literal. -/
def jsOrD (a : Option String) (d : String) : String :=
  match a with
  | some s => if s = "" then d else s
  | none => d

/-- Model of JavaScript `s.substring(0, 10)`. -/
def jsSubstring10 (s : String) : String :=
  String.mk (s.data.take 10)

/-- The `userData` record assembled by `saveUserToDatabase`
(`src/esignetService.js:112-121`). -/
structure UserData where
  sub : Option String
  name : String
  email : Option String
  phone : Option String
  date_of_birth : Option String
  address : Option String
  deriving Repr, DecidableEq

/-- The field extraction of `src/esignetService.js:112-121`:
`sub := userInfo.sub || userInfo.user_id`, `name` defaulting to
`'Unknown'`, `phone := userInfo.phone_number || userInfo.phone || null`,
the rest defaulting to `null`. -/
def mkUserData (userInfo : Claims) : UserData :=
  { sub := jsOr userInfo.sub userInfo.user_id
    name := jsOrD userInfo.name "Unknown"
    email := jsOr userInfo.email none
    phone := jsOr userInfo.phone_number (jsOr userInfo.phone none)
    date_of_birth := jsOr userInfo.birthdate none
    address := jsOr userInfo.address none }

/-- The name fallback of `src/esignetService.js:128-131`: when the name
is missing or `'Unknown'`, replace it with `User_` followed by the first
ten characters of the subject. -/
def applyNameFallback (userData : UserData) : UserData :=
  if userData.name = "" ∨ userData.name = "Unknown" then
    { userData with name := "User_" ++ jsSubstring10 (userData.sub.getD "") }
  else userData

/-- The body of the `try` block of `saveUserToDatabase`
(`src/esignetService.js:108-138`): build `userData`, throw when the
subject is missing, apply the name fallback, then call `User.saveUser`
(an oracle of the embedding, which may itself throw). -/
def saveUserBody {α : Type} (saveUser : UserData → Except String α)
    (userInfo : Claims) : Except String α :=
  let userData := mkUserData userInfo
  if ¬ jsTruthy userData.sub then
    .error "User subject identifier (sub) is required"
  else
    saveUser (applyNameFallback userData)

/-- `saveUserToDatabase` (`src/esignetService.js:107-144`): the whole
body runs inside `try { ... } catch { return null }`, so every internal
error is swallowed and the function resolves with the saved record or
`null`. -/
def saveUserToDatabase {α : Type} (saveUser : UserData → Except String α)
    (userInfo : Claims) : Except String (Option α) :=
  match saveUserBody saveUser userInfo with
  | .ok savedUser => .ok (some savedUser)
  | .error _ => .ok none

/-- Message rendering of `DecodeError`, as rethrown by
`get_GetUserInfo`'s catch-and-rethrow. -/
def decodeErrorMessage : DecodeError → String
  | .missingJweKey => "JWE_USERINFO_PRIVATE_KEY is required for JWE decryption"
  | .keyImportError => "JWE key import failed"
  | .decryptionError => "JWE decryption failed"
  | .formatError => "Invalid user info response format"

/-- `get_GetUserInfo` (`src/esignetService.js:73-101`): fail when
`baseUrl` is empty; the HTTP GET is an oracle input (`httpResult`);
decode the response body, raising the decode error; then run
`saveUserToDatabase` inside its own `try`/`catch` whose failure is only
logged; finally return the decoded user info. -/
def get_GetUserInfo {α : Type} (cfg : Config)
    (saveUser : UserData → Except String α)
    (httpResult : Except String Envelope) : Except String Claims :=
  if baseUrl cfg = "" then
    .error "ESIGNET_SERVICE_URL is not configured"
  else
    match httpResult with
    | .error e => .error e
    | .ok body =>
      match decodeUserInfoResponse cfg body with
      | .error e => .error (decodeErrorMessage e)
      | .ok userInfo =>
        match saveUserToDatabase saveUser userInfo with
        | .ok _ => .ok userInfo
        | .error _ => .ok userInfo

/-! ## The `/delegate/fetchUserInfo` handler (`src/app.js:43-59`) -/

/-- The JSON body of the token-endpoint response, as read by the
handler: `access_token` and the optional `error` field. -/
structure TokenResponse where
  access_token : Option String := none
  error : Option String := none
  deriving Repr, DecidableEq

/-- The three ways the handler responds: `res.status(400).json(tokenResponse)`,
`res.json(userInfo)`, and the catch-all `res.status(500)`. -/
inductive HandlerResult
  | badRequest (body : TokenResponse)
  | okJson (claims : Claims)
  | serverError (msg : String)
  deriving Repr, DecidableEq

/-- The `/delegate/fetchUserInfo` handler (`src/app.js:43-59`): await
the token exchange (a rejection is caught and becomes a 500), return
400 with the token body when `tokenResponse.error` is truthy, otherwise
call `get_GetUserInfo` (an oracle input) on the access token and return
its claims, any rejection becoming a 500. -/
def fetchUserInfoHandler (tokenResult : Except String TokenResponse)
    (getUserInfo : Option String → Except String Claims) : HandlerResult :=
  match tokenResult with
  | .error e => .serverError e
  | .ok tokenResponse =>
    if jsTruthy tokenResponse.error then
      .badRequest tokenResponse
    else
      match getUserInfo tokenResponse.access_token with
      | .ok userInfo => .okJson userInfo
      | .error e => .serverError e

/-! ## Supporting lemmas -/

theorem digitChar36_injective : Function.Injective digitChar36 := by decide

theorem fromBase36_toBase36Aux :
    ∀ (fuel n : Nat), n ≤ fuel → fromBase36Digits (toBase36Aux fuel n) = n := by
  intro fuel
  induction fuel with
  | zero =>
    intro n hn
    interval_cases n
    rfl
  | succ f ih =>
    intro n hn
    simp only [toBase36Aux]
    split
    · simp [fromBase36Digits]
      omega
    · rename_i h
      have hdiv : n / 36 < n := Nat.div_lt_self (by omega) (by omega)
      simp only [fromBase36Digits, ih (n / 36) (by omega)]
      exact Nat.mod_add_div n 36

theorem fromBase36_toBase36Digits (n : Nat) :
    fromBase36Digits (toBase36Digits n) = n :=
  fromBase36_toBase36Aux n n (Nat.le_refl n)

theorem string_data_injective {s t : String} (h : s.data = t.data) : s = t := by
  cases s
  cases t
  simp_all

theorem toBase36_injOn_pos {m n : Nat} (hm : 0 < m) (hn : 0 < n)
    (h : toBase36 m = toBase36 n) : m = n := by
  unfold toBase36 at h
  rw [if_neg (by omega), if_neg (by omega)] at h
  have hd := congrArg String.data h
  have hl := List.reverse_injective hd
  have hdm := List.map_injective_iff.mpr digitChar36_injective hl
  have := congrArg fromBase36Digits hdm
  rwa [fromBase36_toBase36Digits, fromBase36_toBase36Digits] at this

theorem generateUniqueId_ne {r1 r2 : String} {t1 t2 : Nat}
    (h1 : 0 < t1) (h2 : 0 < t2)
    (hdiff : (r1 = r2 ∧ t1 ≠ t2) ∨ (r1 ≠ r2 ∧ r1.length = r2.length)) :
    generateUniqueId r1 t1 ≠ generateUniqueId r2 t2 := by
  intro h
  unfold generateUniqueId at h
  have hdata := congrArg String.data h
  rw [String.data_append, String.data_append] at hdata
  rcases hdiff with ⟨hr, ht⟩ | ⟨hr, hlen⟩
  · subst hr
    have hb := List.append_cancel_left hdata
    exact ht (toBase36_injOn_pos h1 h2 (string_data_injective hb))
  · have hlen' : r1.data.length = r2.data.length := hlen
    exact hr (string_data_injective (List.append_inj hdata hlen').1)

theorem decodeJwtOrJson_error {p : Envelope} {e : DecodeError}
    (h : decodeJwtOrJson p = .error e) : e = .formatError := by
  unfold decodeJwtOrJson at h
  cases hj : decodeJwt p with
  | some c => simp [hj] at h
  | none =>
    cases hp : jsonParse p with
    | some c => simp [hj, hp] at h
    | none =>
      simp [hj, hp] at h
      exact h.symm

theorem decodeUserInfoResponse_jwe (cfg : Config) (key : Nat) (r : Envelope)
    (htype : isJweConfigured cfg.USERINFO_RESPONSE_TYPE = true)
    (hkey : cfg.JWE_USERINFO_PRIVATE_KEY = some (.valid key)) :
    decodeUserInfoResponse cfg r =
      (match decryptChain key r with
       | none => .error .decryptionError
       | some plaintext => decodeJwtOrJson plaintext) := by
  simp [decodeUserInfoResponse, htype, hkey]

theorem decodeUserInfoResponse_plain (cfg : Config) (r : Envelope)
    (htype : isJweConfigured cfg.USERINFO_RESPONSE_TYPE = false) :
    decodeUserInfoResponse cfg r = decodeJwtOrJson r := by
  simp [decodeUserInfoResponse, htype]

end Esignet

namespace Esignet

example : decodeUserInfoResponse {} (.jwt { sub := some "abc123", name := some "Jane" }) =
    .ok { sub := some "abc123", name := some "Jane" } := by rfl

example : decodeUserInfoResponse
    { USERINFO_RESPONSE_TYPE := some "JWE", JWE_USERINFO_PRIVATE_KEY := some (.valid 7) }
    (.jwe .flattened 7 (.jwt { sub := some "s" })) = .ok { sub := some "s" } := by rfl

example : decodeUserInfoResponse
    { USERINFO_RESPONSE_TYPE := some "jwe", JWE_USERINFO_PRIVATE_KEY := some (.valid 7) }
    (.jwe .compact 9 (.jwt { sub := some "s" })) = .error .decryptionError := by rfl

end Esignet

namespace Esignet

/-! ## Claim theorems -/

/-- C1: when the user-info response type is configured as `"jwe"` (with a
well-formed decryption key), `decodeUserInfoResponse` attempts decryption
in the fixed order compact, flattened JSON, general JSON, moving to the
next strategy only when the previous one fails; it fails with the
decryption error if and only if all three strategies fail; and when a
strategy succeeds (correct key on a wrapped signed token) the resulting
claims equal those the unwrapped token yields. -/
theorem C1_jwe_fallback_and_claims (cfg : Config) (r : Envelope) (key : Nat)
    (htype : isJweConfigured cfg.USERINFO_RESPONSE_TYPE = true)
    (hkey : cfg.JWE_USERINFO_PRIVATE_KEY = some (.valid key)) :
    (decodeUserInfoResponse cfg r = .error .decryptionError ↔
      compactDecrypt key r = none ∧ flattenedDecrypt key r = none ∧
        generalDecrypt key r = none)
    ∧ (∀ p, compactDecrypt key r = some p →
        decodeUserInfoResponse cfg r = decodeJwtOrJson p)
    ∧ (∀ p, compactDecrypt key r = none → flattenedDecrypt key r = some p →
        decodeUserInfoResponse cfg r = decodeJwtOrJson p)
    ∧ (∀ p, compactDecrypt key r = none → flattenedDecrypt key r = none →
        generalDecrypt key r = some p →
        decodeUserInfoResponse cfg r = decodeJwtOrJson p)
    ∧ (∀ form c, r = .jwe form key (.jwt c) →
        decodeUserInfoResponse cfg r = .ok c ∧
        ∀ cfg2 : Config, isJweConfigured cfg2.USERINFO_RESPONSE_TYPE = false →
          decodeUserInfoResponse cfg2 (.jwt c) = .ok c) := by
  have hD := decodeUserInfoResponse_jwe cfg key r htype hkey
  refine ⟨⟨?_, ?_⟩, ?_, ?_, ?_, ?_⟩
  · intro h
    rw [hD] at h
    unfold decryptChain at h
    cases hc : compactDecrypt key r with
    | some p =>
      rw [hc] at h
      exact absurd (decodeJwtOrJson_error h) (by simp)
    | none =>
      rw [hc] at h
      cases hf : flattenedDecrypt key r with
      | some p =>
        rw [hf] at h
        exact absurd (decodeJwtOrJson_error h) (by simp)
      | none =>
        rw [hf] at h
        cases hg : generalDecrypt key r with
        | some p =>
          rw [hg] at h
          exact absurd (decodeJwtOrJson_error h) (by simp)
        | none => exact ⟨rfl, rfl, rfl⟩
  · rintro ⟨hc, hf, hg⟩
    rw [hD]
    simp [decryptChain, hc, hf, hg]
  · intro p hp
    rw [hD]
    simp [decryptChain, hp]
  · intro p hc hp
    rw [hD]
    simp [decryptChain, hc, hp]
  · intro p hc hf hp
    rw [hD]
    simp [decryptChain, hc, hf, hp]
  · intro form c hr
    subst hr
    constructor
    · rw [hD]
      cases form <;>
        simp [decryptChain, compactDecrypt, flattenedDecrypt, generalDecrypt,
          decodeJwtOrJson, decodeJwt]
    · intro cfg2 h2
      rw [decodeUserInfoResponse_plain cfg2 _ h2]
      rfl

/-- C1 witness: a compact JWE under key 7 wrapping a signed token
decodes to that token's claims. -/
theorem C1_witness :
    decodeUserInfoResponse
      { USERINFO_RESPONSE_TYPE := some "jwe", JWE_USERINFO_PRIVATE_KEY := some (.valid 7) }
      (.jwe .compact 7 (.jwt { sub := some "abc123", name := some "Jane" })) =
      .ok { sub := some "abc123", name := some "Jane" } :=
  ((C1_jwe_fallback_and_claims
      { USERINFO_RESPONSE_TYPE := some "jwe", JWE_USERINFO_PRIVATE_KEY := some (.valid 7) }
      (.jwe .compact 7 (.jwt { sub := some "abc123", name := some "Jane" })) 7
      (by decide) rfl).2.2.2.2 .compact
      { sub := some "abc123", name := some "Jane" } rfl).1

/-- C2: when encryption is not configured, `decodeUserInfoResponse`
returns the payload claims of a compact signed token when JWT decoding
succeeds (the `{"sub":"abc123","name":"Jane"}` token yields exactly those
claims); when JWT decoding fails it returns the result of parsing the
response as JSON; and it fails with the format error if and only if both
fail. -/
theorem C2_jwt_then_json (cfg : Config) (r : Envelope)
    (henc : isJweConfigured cfg.USERINFO_RESPONSE_TYPE = false) :
    (∀ c, decodeJwt r = some c → decodeUserInfoResponse cfg r = .ok c)
    ∧ (∀ c, decodeJwt r = none → jsonParse r = some c →
        decodeUserInfoResponse cfg r = .ok c)
    ∧ (decodeUserInfoResponse cfg r = .error .formatError ↔
        decodeJwt r = none ∧ jsonParse r = none)
    ∧ (r = .jwt { sub := some "abc123", name := some "Jane" } →
        decodeUserInfoResponse cfg r = .ok { sub := some "abc123", name := some "Jane" }) := by
  have hD := decodeUserInfoResponse_plain cfg r henc
  refine ⟨?_, ?_, ⟨?_, ?_⟩, ?_⟩
  · intro c hc
    rw [hD]
    simp [decodeJwtOrJson, hc]
  · intro c hc hj
    rw [hD]
    simp [decodeJwtOrJson, hc, hj]
  · intro h
    rw [hD] at h
    unfold decodeJwtOrJson at h
    cases hc : decodeJwt r with
    | some c => rw [hc] at h; cases h
    | none =>
      rw [hc] at h
      cases hj : jsonParse r with
      | some c => rw [hj] at h; cases h
      | none => exact ⟨rfl, rfl⟩
  · rintro ⟨hc, hj⟩
    rw [hD]
    simp [decodeJwtOrJson, hc, hj]
  · intro hr
    subst hr
    rw [hD]
    rfl

/-- C2 witness: the compact signed token carrying
`{"sub":"abc123","name":"Jane"}` decodes to exactly those claims under
the `"jwt"` response type. -/
theorem C2_witness :
    decodeUserInfoResponse { USERINFO_RESPONSE_TYPE := some "jwt" }
      (.jwt { sub := some "abc123", name := some "Jane" }) =
      .ok { sub := some "abc123", name := some "Jane" } :=
  (C2_jwt_then_json { USERINFO_RESPONSE_TYPE := some "jwt" }
      (.jwt { sub := some "abc123", name := some "Jane" }) (by decide)).2.2.2 rfl

/-- C10: when `USERINFO_RESPONSE_TYPE` is absent (undefined or the empty
string) `decodeUserInfoResponse` raises no configuration error: it skips
the decryption branch entirely and proceeds to JWT/JSON decoding, and
the decryption-key check is reached only when the response type is
(case-insensitively) `"jwe"`. -/
theorem C10_absent_type_skips_decryption (cfg : Config) (r : Envelope)
    (habs : cfg.USERINFO_RESPONSE_TYPE = none ∨ cfg.USERINFO_RESPONSE_TYPE = some "") :
    decodeUserInfoResponse cfg r = decodeJwtOrJson r
    ∧ decodeUserInfoResponse cfg r ≠ .error .missingJweKey
    ∧ (∀ (cfg2 : Config) (r2 : Envelope),
        decodeUserInfoResponse cfg2 r2 = .error .missingJweKey →
        isJweConfigured cfg2.USERINFO_RESPONSE_TYPE = true)
    ∧ (∀ s, s ≠ "" → jsToLower s = "jwe" → isJweConfigured (some s) = true) := by
  have henc : isJweConfigured cfg.USERINFO_RESPONSE_TYPE = false := by
    rcases habs with h | h <;> rw [h] <;> rfl
  have hD := decodeUserInfoResponse_plain cfg r henc
  refine ⟨hD, ?_, ?_, ?_⟩
  · rw [hD]
    intro h
    exact absurd (decodeJwtOrJson_error h) (by simp)
  · intro cfg2 r2 h
    by_contra hfalse
    have h2 : isJweConfigured cfg2.USERINFO_RESPONSE_TYPE = false := by
      cases hb : isJweConfigured cfg2.USERINFO_RESPONSE_TYPE
      · rfl
      · exact absurd hb hfalse
    rw [decodeUserInfoResponse_plain cfg2 r2 h2] at h
    exact absurd (decodeJwtOrJson_error h) (by simp)
  · intro s hs hl
    simp [isJweConfigured, hs, hl]

/-- C10 witness: with no configured response type the decode of a plain
signed token succeeds with no key check. -/
theorem C10_witness :
    decodeUserInfoResponse { USERINFO_RESPONSE_TYPE := none }
      (.jwt { sub := some "abc123" }) = decodeJwtOrJson (.jwt { sub := some "abc123" }) :=
  (C10_absent_type_skips_decryption { USERINFO_RESPONSE_TYPE := none }
      (.jwt { sub := some "abc123" }) (Or.inl rfl)).1

end Esignet

namespace Esignet

/-- C3 counterexample: with a configured service URL carrying a leading
space, the posted token endpoint is built from the trimmed `baseUrl`
while the client assertion's `aud` is built from the untrimmed
`ESIGNET_SERVICE_URL`, so the two differ. -/
theorem C3_counterexample :
    (post_GetToken
        { ESIGNET_SERVICE_URL := some " https://idp.example"
          CLIENT_ASSERTION_TYPE :=
            some "urn:ietf:params:oauth:client-assertion-type:jwt-bearer"
          CLIENT_PRIVATE_KEY := some "jwk" }
        { code := "AUTH123", client_id := "rp-1"
          redirect_uri := "https://rp.example/cb", grant_type := "authorization_code" }
        1000 "r" 123).map (fun req => (req.client_assertion.aud, req.endpoint)) =
      .ok (" https://idp.example/oauth/v2/token", "https://idp.example/oauth/v2/token")
    ∧ (" https://idp.example/oauth/v2/token" : String) ≠
        "https://idp.example/oauth/v2/token" := by
  exact ⟨by rfl, by decide⟩

/-- C3 amended: for every token-exchange call whose configured service
URL has no leading or trailing whitespace, the `aud` claim of the client
assertion equals, as an exact string, the token-endpoint URL that
`post_GetToken` POSTs the assertion to in the same call; and the
assertion carried by the request is exactly the one built by
`generateSignedJwt` (the audience is never mutated after construction). -/
theorem C3_amended_aud_eq_endpoint (cfg : Config) (params : TokenRequestParams)
    (nowSec : Nat) (randSuffix : String) (nowMs : Nat)
    (u : String) (hurl : cfg.ESIGNET_SERVICE_URL = some u)
    (htrim : jsTrim u = u)
    (req : TokenRequest)
    (hreq : post_GetToken cfg params nowSec randSuffix nowMs = .ok req) :
    req.client_assertion.aud = req.endpoint ∧
    generateSignedJwt cfg params.client_id nowSec randSuffix nowMs =
      .ok req.client_assertion := by
  unfold post_GetToken at hreq
  by_cases hb : baseUrl cfg = ""
  · rw [if_pos hb] at hreq
    cases hreq
  · rw [if_neg hb] at hreq
    cases hg : generateSignedJwt cfg params.client_id nowSec randSuffix nowMs with
    | error e => rw [hg] at hreq; cases hreq
    | ok assertion =>
      rw [hg] at hreq
      have hne : u ≠ "" := by
        intro hu
        apply hb
        simp [baseUrl, hurl, hu]
      have hbase : baseUrl cfg = u := by
        simp [baseUrl, hurl, hne, htrim]
      have haud : assertion.aud = u ++ getTokenEndPoint := by
        unfold generateSignedJwt at hg
        split at hg
        · cases hg
        · injection hg with hg'
          rw [← hg']
          simp [jsStr, hurl]
      cases hreq
      constructor
      · simpa [hbase] using haud
      · rfl

/-- C3 witness: with the whitespace-free service URL
`https://idp.example`, the assertion's audience equals the posted
endpoint. -/
theorem C3_witness :
    ({ endpoint := "https://idp.example/oauth/v2/token"
       code := "AUTH123", client_id := "rp-1"
       redirect_uri := "https://rp.example/cb", grant_type := "authorization_code"
       client_assertion_type := "urn:ietf:params:oauth:client-assertion-type:jwt-bearer"
       client_assertion :=
         { iss := "rp-1", sub := "rp-1"
           aud := "https://idp.example/oauth/v2/token"
           jti := "r3f", iat := 1000, exp := 1300 } } : TokenRequest).client_assertion.aud =
    ({ endpoint := "https://idp.example/oauth/v2/token"
       code := "AUTH123", client_id := "rp-1"
       redirect_uri := "https://rp.example/cb", grant_type := "authorization_code"
       client_assertion_type := "urn:ietf:params:oauth:client-assertion-type:jwt-bearer"
       client_assertion :=
         { iss := "rp-1", sub := "rp-1"
           aud := "https://idp.example/oauth/v2/token"
           jti := "r3f", iat := 1000, exp := 1300 } } : TokenRequest).endpoint :=
  (C3_amended_aud_eq_endpoint
      { ESIGNET_SERVICE_URL := some "https://idp.example"
        CLIENT_ASSERTION_TYPE :=
          some "urn:ietf:params:oauth:client-assertion-type:jwt-bearer"
        CLIENT_PRIVATE_KEY := some "jwk" }
      { code := "AUTH123", client_id := "rp-1"
        redirect_uri := "https://rp.example/cb", grant_type := "authorization_code" }
      1000 "r" 123 "https://idp.example" rfl (by rfl) _ (by rfl)).1

end Esignet

namespace Esignet

/-- C4 counterexample: a token body that contains an `error` field whose
value is the empty string is not treated as a provider error — the
handler proceeds and the user-info fetch IS invoked (the outcome depends
on it), refuting the claim for that input. -/
theorem C4_counterexample :
    fetchUserInfoHandler (.ok { access_token := some "tok1", error := some "" })
        (fun _ => .ok { sub := some "S-1" }) = .okJson { sub := some "S-1" }
    ∧ fetchUserInfoHandler (.ok { access_token := some "tok1", error := some "" })
        (fun _ => .error "decoder invoked") = .serverError "decoder invoked" := by
  exact ⟨rfl, rfl⟩

/-- C4 amended: for every `completeLogin` invocation in which the token
exchange returns a body containing a non-empty `error` value (e.g.
`invalid_grant`), the handler fails with the 400 provider-error response
carrying that body, and the user-info fetch is never invoked (the
outcome is independent of the fetch oracle). -/
theorem C4_amended_provider_error_short_circuits (tok : TokenResponse) (e : String)
    (he : tok.error = some e) (hne : e ≠ "")
    (f g : Option String → Except String Claims) :
    fetchUserInfoHandler (.ok tok) f = .badRequest tok ∧
    fetchUserInfoHandler (.ok tok) f = fetchUserInfoHandler (.ok tok) g := by
  have ht : jsTruthy tok.error = true := by simp [jsTruthy, he, hne]
  constructor <;> simp [fetchUserInfoHandler, ht]

/-- C4 witness: a `{error: "invalid_grant"}` token body produces the 400
response and the result does not depend on the decoder oracle. -/
theorem C4_witness :
    fetchUserInfoHandler (.ok { access_token := some "tok1", error := some "invalid_grant" })
        (fun _ => .ok { sub := some "S-1" }) =
      .badRequest { access_token := some "tok1", error := some "invalid_grant" } :=
  (C4_amended_provider_error_short_circuits
      { access_token := some "tok1", error := some "invalid_grant" } "invalid_grant"
      rfl (by decide) (fun _ => .ok { sub := some "S-1" })
      (fun _ => .error "unused")).1

/-- C5: whenever decoding the user-info response succeeds, the decoded
claims are returned to the caller, and the result of `get_GetUserInfo`
is independent of the credential-store oracle — a throwing
`User.saveUser` never propagates. -/
theorem C5_claims_survive_save_failure {α : Type} (cfg : Config)
    (save1 save2 : UserData → Except String α) (body : Envelope) (c : Claims)
    (hbase : baseUrl cfg ≠ "")
    (hdec : decodeUserInfoResponse cfg body = .ok c) :
    get_GetUserInfo cfg save1 (.ok body) = .ok c ∧
    ∀ x : Except String Envelope,
      get_GetUserInfo cfg save1 x = get_GetUserInfo cfg save2 x := by
  constructor
  · unfold get_GetUserInfo
    rw [if_neg hbase]
    simp only [hdec]
    split <;> rfl
  · intro x
    unfold get_GetUserInfo
    by_cases hb : baseUrl cfg = ""
    · rw [if_pos hb, if_pos hb]
    · rw [if_neg hb, if_neg hb]
      cases x with
      | error e => rfl
      | ok body2 =>
        cases hdec2 : decodeUserInfoResponse cfg body2 with
        | error e => simp [hdec2]
        | ok userInfo =>
          simp only [hdec2]
          cases h1 : saveUserToDatabase save1 userInfo <;>
            cases h2 : saveUserToDatabase save2 userInfo <;> simp [h1, h2]

/-- C5 witness: with a credential store that always throws, the decoded
claims are still returned. -/
theorem C5_witness :
    get_GetUserInfo { ESIGNET_SERVICE_URL := some "https://idp.example" }
        (fun _ => (.error "db down" : Except String Unit))
        (.ok (.jwt { sub := some "S-1", name := some "Alice" })) =
      .ok { sub := some "S-1", name := some "Alice" } :=
  (C5_claims_survive_save_failure { ESIGNET_SERVICE_URL := some "https://idp.example" }
      (fun _ => (.error "db down" : Except String Unit))
      (fun _ => (.error "db down" : Except String Unit))
      (.jwt { sub := some "S-1", name := some "Alice" })
      { sub := some "S-1", name := some "Alice" }
      (by decide) rfl).1

end Esignet

namespace Esignet

/-- C6 counterexample: the jti is built only from the `Math.random`
sample and the `Date.now()` millisecond, so two successive sign calls
that observe the same sample in the same millisecond produce the very
same jti — the code does not guarantee uniqueness unconditionally. -/
theorem C6_counterexample :
    ¬ (∀ a1 a2 : SignedJwtClaims,
        generateSignedJwt
          { ESIGNET_SERVICE_URL := some "https://idp.example"
            CLIENT_PRIVATE_KEY := some "jwk" }
          "rp-1" 1700000000 "8h3k2l" 1700000000123 = .ok a1 →
        generateSignedJwt
          { ESIGNET_SERVICE_URL := some "https://idp.example"
            CLIENT_PRIVATE_KEY := some "jwk" }
          "rp-1" 1700000000 "8h3k2l" 1700000000123 = .ok a2 →
        a1.jti ≠ a2.jti) := by
  intro h
  exact h _ _ rfl rfl rfl

/-- C6 amended: for every valid clientId, two successive sign calls
whose observed samples differ — the same random sample at different
milliseconds, or different equal-length random samples — produce
client assertions with different jti values, and both assertions carry
the identical aud claim, the configured service URL concatenated with
the token path. -/
theorem C6_amended_fresh_jti_same_aud (cfg : Config) (clientId : String)
    (hkey : jsTruthy cfg.CLIENT_PRIVATE_KEY = true)
    (n1 n2 t1 t2 : Nat) (r1 r2 : String)
    (h1 : 0 < t1) (h2 : 0 < t2)
    (hdiff : (r1 = r2 ∧ t1 ≠ t2) ∨ (r1 ≠ r2 ∧ r1.length = r2.length)) :
    ∃ a1 a2 : SignedJwtClaims,
      generateSignedJwt cfg clientId n1 r1 t1 = .ok a1 ∧
      generateSignedJwt cfg clientId n2 r2 t2 = .ok a2 ∧
      a1.jti ≠ a2.jti ∧
      a1.aud = a2.aud ∧
      a1.aud = jsStr cfg.ESIGNET_SERVICE_URL ++ getTokenEndPoint := by
  refine ⟨{ iss := clientId, sub := clientId
            aud := jsStr cfg.ESIGNET_SERVICE_URL ++ getTokenEndPoint
            jti := generateUniqueId r1 t1, iat := n1, exp := n1 + 300 },
          { iss := clientId, sub := clientId
            aud := jsStr cfg.ESIGNET_SERVICE_URL ++ getTokenEndPoint
            jti := generateUniqueId r2 t2, iat := n2, exp := n2 + 300 },
          ?_, ?_, ?_, rfl, rfl⟩
  · simp [generateSignedJwt, hkey]
  · simp [generateSignedJwt, hkey]
  · exact generateUniqueId_ne h1 h2 hdiff

/-- C6 witness: the same random sample observed one millisecond apart
yields distinct jti values. -/
theorem C6_witness :
    (generateSignedJwt
        { ESIGNET_SERVICE_URL := some "https://idp.example"
          CLIENT_PRIVATE_KEY := some "jwk" }
        "rp-1" 1000 "abc" 123).map SignedJwtClaims.jti ≠
    (generateSignedJwt
        { ESIGNET_SERVICE_URL := some "https://idp.example"
          CLIENT_PRIVATE_KEY := some "jwk" }
        "rp-1" 1001 "abc" 124).map SignedJwtClaims.jti := by
  obtain ⟨a1, a2, e1, e2, hne, -, -⟩ :=
    C6_amended_fresh_jti_same_aud
      { ESIGNET_SERVICE_URL := some "https://idp.example"
        CLIENT_PRIVATE_KEY := some "jwk" }
      "rp-1" (by decide) 1000 1001 123 124 "abc" "abc"
      (by decide) (by decide) (Or.inl ⟨rfl, by decide⟩)
  rw [e1, e2]
  intro hcontra
  apply hne
  injection hcontra

/-- C7: every client assertion produced by `generateSignedJwt` has an
expiry exactly 5 minutes (300 seconds) after its issued-at claim. -/
theorem C7_expiry_is_iat_plus_300 (cfg : Config) (clientId : String)
    (nowSec : Nat) (randSuffix : String) (nowMs : Nat) (a : SignedJwtClaims)
    (h : generateSignedJwt cfg clientId nowSec randSuffix nowMs = .ok a) :
    a.exp = a.iat + 300 := by
  unfold generateSignedJwt at h
  split at h
  · cases h
  · injection h with h'
    rw [← h']

/-- C7 witness: the assertion produced at second 1000 expires at second
1300. -/
theorem C7_witness :
    ({ iss := "rp-1", sub := "rp-1"
       aud := "https://idp.example/oauth/v2/token"
       jti := "abc3f", iat := 1000, exp := 1300 } : SignedJwtClaims).exp =
    ({ iss := "rp-1", sub := "rp-1"
       aud := "https://idp.example/oauth/v2/token"
       jti := "abc3f", iat := 1000, exp := 1300 } : SignedJwtClaims).iat + 300 :=
  C7_expiry_is_iat_plus_300
    { ESIGNET_SERVICE_URL := some "https://idp.example", CLIENT_PRIVATE_KEY := some "jwk" }
    "rp-1" 1000 "abc" 123 _ (by rfl)

/-- C8: a missing service URL makes `post_GetToken` fail with its
configuration error, a missing client private key makes
`generateSignedJwt` (and hence `post_GetToken`) fail with its
configuration error, and a `TokenRequest` (the network POST) is produced
only when both configuration values are present — so these failures
happen before any network call. -/
theorem C8_config_errors_before_network (cfg : Config) (params : TokenRequestParams)
    (nowSec : Nat) (randSuffix : String) (nowMs : Nat) :
    (baseUrl cfg = "" →
      post_GetToken cfg params nowSec randSuffix nowMs =
        .error "ESIGNET_SERVICE_URL is not configured")
    ∧ (jsTruthy cfg.CLIENT_PRIVATE_KEY = false →
      ∀ clientId, generateSignedJwt cfg clientId nowSec randSuffix nowMs =
        .error "CLIENT_PRIVATE_KEY is not configured")
    ∧ (jsTruthy cfg.CLIENT_PRIVATE_KEY = false → baseUrl cfg ≠ "" →
      post_GetToken cfg params nowSec randSuffix nowMs =
        .error "CLIENT_PRIVATE_KEY is not configured")
    ∧ (∀ req, post_GetToken cfg params nowSec randSuffix nowMs = .ok req →
        baseUrl cfg ≠ "" ∧ jsTruthy cfg.CLIENT_PRIVATE_KEY = true) := by
  refine ⟨?_, ?_, ?_, ?_⟩
  · intro hb
    simp [post_GetToken, hb]
  · intro hk clientId
    simp [generateSignedJwt, hk]
  · intro hk hb
    simp [post_GetToken, hb, generateSignedJwt, hk]
  · intro req hreq
    unfold post_GetToken at hreq
    by_cases hb : baseUrl cfg = ""
    · rw [if_pos hb] at hreq
      cases hreq
    · refine ⟨hb, ?_⟩
      rw [if_neg hb] at hreq
      cases hk : jsTruthy cfg.CLIENT_PRIVATE_KEY
      · rw [show generateSignedJwt cfg params.client_id nowSec randSuffix nowMs =
            .error "CLIENT_PRIVATE_KEY is not configured" by
              simp [generateSignedJwt, hk]] at hreq
        cases hreq
      · rfl

/-- C8 witness: the empty configuration fails the token exchange with
the service-URL configuration error, and a missing key fails the signer
with the key configuration error. -/
theorem C8_witness :
    post_GetToken {} {} 0 "" 0 = .error "ESIGNET_SERVICE_URL is not configured" ∧
    generateSignedJwt { ESIGNET_SERVICE_URL := some "https://idp.example" } "rp-1" 0 "" 0 =
      .error "CLIENT_PRIVATE_KEY is not configured" :=
  ⟨(C8_config_errors_before_network {} {} 0 "" 0).1 rfl,
   (C8_config_errors_before_network
      { ESIGNET_SERVICE_URL := some "https://idp.example" } {} 0 "" 0).2.1 rfl "rp-1"⟩

/-- C9: `saveUserToDatabase` never rejects: for every claims object —
including one with no subject identifier at all — and every behaviour of
the underlying `User.saveUser`, it resolves with either the saved record
or null; every internal error is swallowed. -/
theorem C9_save_never_rejects {α : Type} (saveUser : UserData → Except String α)
    (userInfo : Claims) :
    (∀ e, saveUserToDatabase saveUser userInfo ≠ .error e)
    ∧ (saveUserToDatabase saveUser userInfo = .ok none ∨
        ∃ r, saveUserToDatabase saveUser userInfo = .ok (some r) ∧
          saveUser (applyNameFallback (mkUserData userInfo)) = .ok r)
    ∧ (jsTruthy (jsOr userInfo.sub userInfo.user_id) = false →
        saveUserToDatabase saveUser userInfo = .ok none)
    ∧ (∀ e, saveUser (applyNameFallback (mkUserData userInfo)) = .error e →
        saveUserToDatabase saveUser userInfo = .ok none) := by
  refine ⟨?_, ?_, ?_, ?_⟩
  · intro e h
    unfold saveUserToDatabase at h
    split at h <;> cases h
  · unfold saveUserToDatabase saveUserBody
    by_cases hs : jsTruthy (mkUserData userInfo).sub = true
    · simp only [hs]
      cases hr : saveUser (applyNameFallback (mkUserData userInfo)) with
      | ok r => exact Or.inr ⟨r, by simp, rfl⟩
      | error e => exact Or.inl (by simp)
    · simp only [Bool.not_eq_true] at hs
      simp [hs]
  · intro hs
    unfold saveUserToDatabase saveUserBody
    have : jsTruthy (mkUserData userInfo).sub = false := hs
    simp [this]
  · intro e he
    unfold saveUserToDatabase saveUserBody
    by_cases hs : jsTruthy (mkUserData userInfo).sub = true
    · simp [hs, he]
    · simp only [Bool.not_eq_true] at hs
      simp [hs]

/-- C9 witness: a claims object with no subject at all, against a store
that always throws, still resolves with null. -/
theorem C9_witness :
    saveUserToDatabase (fun _ => (.error "db down" : Except String Unit)) {} = .ok none :=
  (C9_save_never_rejects (fun _ => (.error "db down" : Except String Unit)) {}).2.2.1 rfl

end Esignet
